import Mathlib

/-!
# Verification of the CambAI Python client's asynchronous task orchestration

Shallow embedding of `src/cambai/__init__.py` and `src/camb_ai_pip/__init__.py`
(the `CambAI` client class).  The five public orchestration methods
(`dub`, `tts`, `transcribe`, `translate`, `translate_tts`) inline the same
submit / poll / fetch control flow; we embed that loop once, parameterised by
the scripted sequence of status responses and by the result fetcher.  The five
task submitters (`start_dubbing`, `create_tts`, `create_transcription`,
`create_translation`, `create_translated_tts`) are embedded one by one, with
their local validation, shared-session header mutation, and HTTP-response
handling made explicit.
-/

namespace CambAI

/-- The closed status enumeration of `TaskStatus`
(`Literal["SUCCESS", "PENDING", "TIMEOUT", "ERROR", "PAYMENT_REQUIRED"]`). -/
inductive Status where
  | SUCCESS
  | PENDING
  | TIMEOUT
  | ERROR
  | PAYMENT_REQUIRED
deriving DecidableEq, Repr

/-- The literal string the Python code receives in `task["status"]`. -/
def Status.literal : Status → String
  | .SUCCESS => "SUCCESS"
  | .PENDING => "PENDING"
  | .TIMEOUT => "TIMEOUT"
  | .ERROR => "ERROR"
  | .PAYMENT_REQUIRED => "PAYMENT_REQUIRED"

/-- `TaskStatus` TypedDict: `status` plus an optional integer `run_id`
(`run_id: Optional[int]`). -/
structure TaskStatus where
  status : Status
  run_id : Option Int
deriving DecidableEq, Repr

/-- `TaskInfo` TypedDict returned by task creation: `task_id: str`. -/
structure TaskInfo where
  task_id : String
deriving DecidableEq, Repr

/-- How Python renders `task['run_id']` inside an f-string:
`None` for a missing run id, the decimal numeral otherwise. -/
def ridStr : Option Int → String
  | none => "None"
  | some n => toString n

/-- The five task kinds dispatched on by `get_task_status`. -/
inductive TaskKind where
  | dubbing
  | tts
  | transcription
  | translation
  | translated_tts
deriving DecidableEq, Repr

/-- The `APIError` message raised by each orchestrator when the polling loop
observes a status outside `["SUCCESS", "PENDING"]`.  Taken verbatim from the
f-strings in `dub` (line 746), `tts` (line 1004), `transcribe` (line 1217),
`translate` (line 1475) and `translate_tts` (line 1734; that one reuses the
"Dubbing Issue" prefix).  None of them interpolates the task id. -/
def issueLabel : TaskKind → String
  | .dubbing => "Dubbing Issue: "
  | .tts => "Issue with TTS: "
  | .transcription => "Transcription Issue: "
  | .translation => "Translation Issue: "
  | .translated_tts => "Dubbing Issue: "

/-- The interpolated f-string: label, reported status literal, and the run id
rendering — the task id is not interpolated by any of the five methods. -/
def issueMessage (kind : TaskKind) (st : Status) (rid : Option Int) : String :=
  issueLabel kind ++ st.literal ++ " for Run ID: " ++ ridStr rid

/-- The `APIError` message raised when the post-loop status fetch reports a
null run id (`raise APIError("Run ID is None")`). -/
def runIdNoneMessage : String := "Run ID is None"

-- ---------- The polling loop ---------- --

/-- How the `while True` polling loop exits: `success n` means the status check
of response index `n` observed `SUCCESS` and the loop `break`s; `failure n st
rid` means response index `n` carried the terminal status `st` (outside
`["SUCCESS", "PENDING"]`) with run id `rid` and the loop raises `APIError`. -/
inductive LoopExit where
  | success (n : Nat)
  | failure (n : Nat) (st : Status) (rid : Option Int)
deriving DecidableEq, Repr

/-- The `while True` loop shared by `dub`/`tts`/`transcribe`/`translate`/
`translate_tts` (e.g. lines 731–758 of `src/cambai/__init__.py` and lines
322–339 of `src/camb_ai_pip/__init__.py`), over a scripted stream of status
responses: check `responses i`; `break` on `SUCCESS`; raise on any status not
in `["SUCCESS", "PENDING"]`; otherwise sleep for the polling interval and
re-enter.  `fuel` bounds the number of iterations we unfold; the Python loop
itself has no bound, so exhausting the fuel (`none`) means the loop is still
running after `fuel` checks. -/
def pollLoop (responses : Nat → TaskStatus) : Nat → Nat → Option LoopExit
  | _, 0 => none
  | i, fuel + 1 =>
    let task := responses i
    if task.status = Status.SUCCESS then
      some (LoopExit.success i)
    else if ¬ (task.status = Status.SUCCESS ∨ task.status = Status.PENDING) then
      some (LoopExit.failure i task.status task.run_id)
    else
      pollLoop responses (i + 1) fuel

/-- Terminal outcome of one orchestration run.
`result a` models a normal return of the fetched artifact;
`taskFailure st rid` models `raise APIError(issueMessage kind st rid)`;
`protocolViolation` models `raise APIError("Run ID is None")`. -/
inductive Outcome (α : Type) where
  | result (a : α)
  | taskFailure (st : Status) (rid : Option Int)
  | protocolViolation
deriving DecidableEq, Repr

/-- The string carried by the `APIError` an orchestrator of the given kind
raises for each failing outcome (`none` for a normal return). -/
def raisedMessage (kind : TaskKind) : Outcome α → Option String
  | .result _ => none
  | .taskFailure st rid => some (issueMessage kind st rid)
  | .protocolViolation => some runIdNoneMessage

/-- Observable trace of one orchestration run: the outcome, the number of
`get_task_status` requests issued (loop checks plus the post-loop fetch), the
number of completed poll-wait cycles (`sleep`s), and the run ids passed to the
result fetcher. -/
structure Trace (α : Type) where
  outcome : Outcome α
  statusRequests : Nat
  sleeps : Nat
  fetchCalls : List Int
deriving DecidableEq, Repr

/-- The orchestration shared by `dub` (lines 731–768), `tts` (989–1026),
`transcribe` (1203–1241), `translate` (1462–1494) and `translate_tts`
(1724–1755): run the polling loop from response index 0; on a terminal
non-success status raise `APIError`; on `SUCCESS` perform **one more**
`get_task_status` fetch (the post-loop `task = self.get_task_status(...)`),
raise `APIError("Run ID is None")` if that fetch's `run_id` is `None`,
otherwise return the result fetched for that `run_id`.
`none` means the loop was still polling after `fuel` status checks. -/
def orchestrate (responses : Nat → TaskStatus) (fetch : Int → α) (fuel : Nat) :
    Option (Trace α) :=
  match pollLoop responses 0 fuel with
  | none => none
  | some (LoopExit.failure n st rid) =>
      some { outcome := Outcome.taskFailure st rid
             statusRequests := n + 1
             sleeps := n
             fetchCalls := [] }
  | some (LoopExit.success n) =>
      let task := responses (n + 1)
      match task.run_id with
      | none =>
          some { outcome := Outcome.protocolViolation
                 statusRequests := n + 2
                 sleeps := n
                 fetchCalls := [] }
      | some rid =>
          some { outcome := Outcome.result (fetch rid)
                 statusRequests := n + 2
                 sleeps := n
                 fetchCalls := [rid] }

-- ---------- The submitters ---------- --

/-- The `Gender` IntEnum: `NOT_KNOWN = 0`, `MALE = 1`, `FEMALE = 2`,
`NOT_APPLICABLE = 9`.  Its instances are exactly these four members. -/
inductive Gender where
  | NOT_KNOWN
  | MALE
  | FEMALE
  | NOT_APPLICABLE
deriving DecidableEq, Repr

/-- The integer value of each `Gender` member (`gender.value`). -/
def Gender.value : Gender → Int
  | .NOT_KNOWN => 0
  | .MALE => 1
  | .FEMALE => 2
  | .NOT_APPLICABLE => 9

/-- A caller-supplied `gender` argument: either an actual `Gender` enum member
(for which `isinstance(gender, Gender)` holds) or any other Python value (here
represented by the integer a caller would most plausibly pass), for which the
`isinstance` check fails. -/
inductive GenderArg where
  | enumMember (g : Gender)
  | nonGender (v : Int)
deriving DecidableEq, Repr

/-- `isinstance(gender, Gender)`. -/
def GenderArg.isGenderInstance : GenderArg → Bool
  | .enumMember _ => true
  | .nonGender _ => false

/-- The condition `(gender is not None) and (not isinstance(gender, Gender))`
guarding the `TypeError` in `create_tts`, `create_translation` and
`create_translated_tts`. -/
def genderArgRejected : Option GenderArg → Bool
  | some g => ! g.isGenderInstance
  | none => false

/-- The condition `(formality is not None) and (formality not in {1, 2})`
guarding the `ValueError` in `create_translation` / `create_translated_tts`. -/
def formalityRejected : Option Int → Bool
  | some f => decide (f ≠ 1 ∧ f ≠ 2)
  | none => false

/-- `requests.Session` header state: an association of header names to values
(`self.session.headers`). -/
structure Session where
  headers : List (String × String)
deriving DecidableEq, Repr

/-- Dictionary assignment `self.session.headers[key] = value`. -/
def Session.setHeader (s : Session) (key value : String) : Session :=
  { headers := (key, value) :: s.headers.filter (fun p => p.1 ≠ key) }

/-- Header lookup on the session. -/
def Session.getHeader (s : Session) (key : String) : Option String :=
  (s.headers.find? (fun p => p.1 = key)).map (·.2)

/-- The headers `requests.Session` attaches to every subsequent request made
through the same session object: exactly the session's current header state. -/
def Session.requestHeaders (s : Session) : List (String × String) :=
  s.headers

/-- The HTTP response the environment would return to the submitter's single
POST, were it issued: the status code, the response body (the text rendered by
the error diagnostics), and the body parsed as `TaskInfo` (what
`response.json()` yields on the 200 path). -/
structure HttpResponse where
  status_code : Nat
  body : String
  taskInfo : TaskInfo
deriving DecidableEq, Repr

/-- Exceptions a submitter raises locally, before any network I/O. -/
inductive PyError where
  | valueError (msg : String)
  | typeError (msg : String)
deriving DecidableEq, Repr

/-- Observable outcome of one submitter call.
`taskInfo t`: the 200 path, returning `response.json()`.
`localError e`: a `ValueError`/`TypeError` raised before the network call.
`fileNotFound`: the `except FileNotFoundError` path (prints and `sys.exit(1)`)
— the file open happens before the POST, so no network call is made.
`httpFailure code body`: the non-200 path, which prints the status code and
the response body and then calls `sys.exit(1)`; the diagnostic carries both. -/
inductive SubmitOutcome where
  | taskInfo (t : TaskInfo)
  | localError (e : PyError)
  | fileNotFound
  | httpFailure (status_code : Nat) (body : String)
deriving DecidableEq, Repr

/-- The full observable effect of one submitter call: how many network
requests it issued (each submitter issues at most one and never retries), the
session state after the call (header mutations persist on the shared
session), and the outcome. -/
structure SubmitResult where
  networkRequests : Nat
  session : Session
  outcome : SubmitOutcome
deriving DecidableEq, Repr

/-- `start_dubbing` (`src/cambai/__init__.py` lines 516–565): no parameter
validation at all; sets `Content-Type: application/json` on the shared session
headers; POSTs; prints-and-exits on non-200; returns `response.json()`. -/
def start_dubbing (s : Session) (video_url : String)
    (source_language target_language : Int) (response : HttpResponse) :
    SubmitResult :=
  let _ := video_url
  let _ := source_language
  let _ := target_language
  let s := s.setHeader "Content-Type" "application/json"
  if response.status_code ≠ 200 then
    { networkRequests := 1, session := s
      outcome := SubmitOutcome.httpFailure response.status_code response.body }
  else
    { networkRequests := 1, session := s
      outcome := SubmitOutcome.taskInfo response.taskInfo }

/-- `create_tts` (lines 772–852): `TypeError` if `gender` is supplied but not
a `Gender` instance; `ValueError` unless `1 <= language <= 148`; then sets
`Content-Type: application/json`, POSTs, prints-and-exits on non-200, else
returns `response.json()`. -/
def create_tts (s : Session) (text : String) (voice_id language : Int)
    (gender : Option GenderArg) (age : Option Int) (response : HttpResponse) :
    SubmitResult :=
  let _ := text
  let _ := voice_id
  let _ := age
  if genderArgRejected gender then
    { networkRequests := 0, session := s
      outcome := SubmitOutcome.localError (PyError.typeError
        "Gender must be an instance of Gender Enum. Ensure Gender Enum is imported.") }
  else if ¬ (1 ≤ language ∧ language ≤ 148) then
    { networkRequests := 0, session := s
      outcome := SubmitOutcome.localError (PyError.valueError
        "Language ID must be between 1 and 148") }
  else
    let s := s.setHeader "Content-Type" "application/json"
    if response.status_code ≠ 200 then
      { networkRequests := 1, session := s
        outcome := SubmitOutcome.httpFailure response.status_code response.body }
    else
      { networkRequests := 1, session := s
        outcome := SubmitOutcome.taskInfo response.taskInfo }

/-- `create_transcription` (lines 1030–1094): `ValueError` unless
`1 <= language <= 148`; then opens the audio file (the `FileNotFoundError`
handler prints and exits before any POST — `fileExists` models whether the
`open` succeeds); POSTs multipart data (no `Content-Type` header mutation),
prints-and-exits on non-200, else returns `response.json()`. -/
def create_transcription (s : Session) (audio_file : String)
    (fileExists : Bool) (language : Int) (response : HttpResponse) :
    SubmitResult :=
  let _ := audio_file
  if ¬ (1 ≤ language ∧ language ≤ 148) then
    { networkRequests := 0, session := s
      outcome := SubmitOutcome.localError (PyError.valueError
        "Language ID must be between 1 and 148") }
  else if ¬ fileExists then
    { networkRequests := 0, session := s, outcome := SubmitOutcome.fileNotFound }
  else if response.status_code ≠ 200 then
    { networkRequests := 1, session := s
      outcome := SubmitOutcome.httpFailure response.status_code response.body }
  else
    { networkRequests := 1, session := s
      outcome := SubmitOutcome.taskInfo response.taskInfo }

/-- `create_translation` (lines 1245–1343): `ValueError` unless each of
`source_language` and `target_language` is in `[1, 148]`; `ValueError` if
`formality` is supplied and not in `{1, 2}`; `TypeError` if `gender` is
supplied and not a `Gender` instance; then sets `Content-Type:
application/json`, POSTs, prints-and-exits on non-200, else returns
`response.json()`. -/
def create_translation (s : Session) (text : String)
    (source_language target_language age : Int) (formality : Option Int)
    (gender : Option GenderArg) (response : HttpResponse) : SubmitResult :=
  let _ := text
  let _ := age
  if ¬ (1 ≤ source_language ∧ source_language ≤ 148) then
    { networkRequests := 0, session := s
      outcome := SubmitOutcome.localError (PyError.valueError
        "create_translation: Source Language must be an integervalue between 1 and 148.") }
  else if ¬ (1 ≤ target_language ∧ target_language ≤ 148) then
    { networkRequests := 0, session := s
      outcome := SubmitOutcome.localError (PyError.valueError
        "create_translation: Target Language must be an integer valuebetween 1 and 148.") }
  else if formalityRejected formality then
    { networkRequests := 0, session := s
      outcome := SubmitOutcome.localError (PyError.valueError
        "create_translation: formality must be one of \x7b1, 2\x7d") }
  else if genderArgRejected gender then
    { networkRequests := 0, session := s
      outcome := SubmitOutcome.localError (PyError.typeError
        "Gender must be an instance of Gender Enum. Make sure you have imported the Gender Enum") }
  else
    let s := s.setHeader "Content-Type" "application/json"
    if response.status_code ≠ 200 then
      { networkRequests := 1, session := s
        outcome := SubmitOutcome.httpFailure response.status_code response.body }
    else
      { networkRequests := 1, session := s
        outcome := SubmitOutcome.taskInfo response.taskInfo }

/-- `create_translated_tts` (lines 1498–1601): same validation chain as
`create_translation` (source language, target language, formality, gender, in
that order), then sets `Content-Type: application/json`, POSTs,
prints-and-exits on non-200, else returns `response.json()`. -/
def create_translated_tts (s : Session) (text : String)
    (voice_id source_language target_language : Int)
    (age formality : Option Int) (gender : Option GenderArg)
    (response : HttpResponse) : SubmitResult :=
  let _ := text
  let _ := voice_id
  let _ := age
  if ¬ (1 ≤ source_language ∧ source_language ≤ 148) then
    { networkRequests := 0, session := s
      outcome := SubmitOutcome.localError (PyError.valueError
        "create_translated_tts: Source Language must be an integervalue between 1 and 148.") }
  else if ¬ (1 ≤ target_language ∧ target_language ≤ 148) then
    { networkRequests := 0, session := s
      outcome := SubmitOutcome.localError (PyError.valueError
        "create_translated_tts: Target Language must be an integer valuebetween 1 and 148.") }
  else if formalityRejected formality then
    { networkRequests := 0, session := s
      outcome := SubmitOutcome.localError (PyError.valueError
        "create_translated_tts: formality must be one of \x7b1, 2\x7d") }
  else if genderArgRejected gender then
    { networkRequests := 0, session := s
      outcome := SubmitOutcome.localError (PyError.typeError
        "Gender must be an instance of Gender Enum. Make sure you have imported the Gender Enum") }
  else
    let s := s.setHeader "Content-Type" "application/json"
    if response.status_code ≠ 200 then
      { networkRequests := 1, session := s
        outcome := SubmitOutcome.httpFailure response.status_code response.body }
    else
      { networkRequests := 1, session := s
        outcome := SubmitOutcome.taskInfo response.taskInfo }

/-- Whether the submitter call produced a `task_id` (the only outcome on which
the orchestrators proceed to extract `response["task_id"]` and poll). -/
def SubmitOutcome.producedTaskId : SubmitOutcome → Bool
  | .taskInfo _ => true
  | _ => false

/-- Composition of a submitter with the polling loop, as done by every
orchestrator: only when the submission returned a `TaskInfo` does
`task_id = response["task_id"]` get extracted and the polling loop entered;
every other submission outcome raises/exits first, so `pollingStarted` is
false and no status request is ever issued. -/
structure FullRun (α : Type) where
  submitOutcome : SubmitOutcome
  pollingStarted : Bool
  trace : Option (Trace α)
deriving Repr

/-- Run the poll/fetch phase after a submission (`dub` lines 716–768 pattern:
`response = self.start_dubbing(...)`, `task_id = response["task_id"]`, loop).
On any submission outcome other than `taskInfo`, control never reaches the
loop. -/
def runAfterSubmit (sub : SubmitResult) (responses : Nat → TaskStatus)
    (fetch : Int → α) (fuel : Nat) : FullRun α :=
  match sub.outcome with
  | SubmitOutcome.taskInfo _ =>
      { submitOutcome := sub.outcome
        pollingStarted := true
        trace := orchestrate responses fetch fuel }
  | o => { submitOutcome := o, pollingStarted := false, trace := none }

-- ---------- Waiting between polls ---------- --

/-- Seconds slept between consecutive status checks by the `cambai`
orchestrators: `for _ in tqdm(range(math.ceil(polling_interval))): sleep(1)`,
i.e. `⌈polling_interval⌉` one-second sleeps (the caller-supplied float is
modelled as a rational). -/
def cambaiWaitSeconds (polling_interval : ℚ) : ℤ := ⌈polling_interval⌉

/-- Seconds slept between consecutive status checks by `camb_ai_pip.dub`:
`sleep(polling_interval)` — exactly the caller-supplied duration. -/
def pipWaitSeconds (polling_interval : ℚ) : ℚ := polling_interval

-- ---------- Helper lemmas about the polling loop ---------- --

/-- A stream of nothing but `PENDING` keeps the loop running past any fuel. -/
theorem pollLoop_pending_none (responses : Nat → TaskStatus)
    (h : ∀ j, (responses j).status = Status.PENDING) :
    ∀ fuel i, pollLoop responses i fuel = none := by
  intro fuel
  induction fuel with
  | zero => intro i; rfl
  | succ fuel ih =>
    intro i
    simp only [pollLoop]
    simp [h i]
    exact ih (i + 1)

/-- If everything before index `k` is `PENDING` and index `k` is `SUCCESS`,
the loop started anywhere at or before `k` (with enough fuel) breaks at `k`. -/
theorem pollLoop_success_of (responses : Nat → TaskStatus) (k : Nat)
    (hpend : ∀ j, j < k → (responses j).status = Status.PENDING)
    (hk : (responses k).status = Status.SUCCESS) :
    ∀ fuel i, i ≤ k → k < i + fuel →
      pollLoop responses i fuel = some (LoopExit.success k) := by
  intro fuel
  induction fuel with
  | zero => intro i h1 h2; omega
  | succ fuel ih =>
    intro i h1 h2
    by_cases hik : i = k
    · subst hik
      simp only [pollLoop]
      simp [hk]
    · have hilt : i < k := lt_of_le_of_ne h1 hik
      have hp := hpend i hilt
      simp only [pollLoop]
      simp [hp]
      exact ih (i + 1) hilt (by omega)

/-- If everything before index `k` is `PENDING` and index `k` carries a status
outside `["SUCCESS", "PENDING"]`, the loop raises at `k`. -/
theorem pollLoop_failure_of (responses : Nat → TaskStatus) (k : Nat)
    (hpend : ∀ j, j < k → (responses j).status = Status.PENDING)
    (hks : (responses k).status ≠ Status.SUCCESS)
    (hkp : (responses k).status ≠ Status.PENDING) :
    ∀ fuel i, i ≤ k → k < i + fuel →
      pollLoop responses i fuel
        = some (LoopExit.failure k (responses k).status (responses k).run_id) := by
  intro fuel
  induction fuel with
  | zero => intro i h1 h2; omega
  | succ fuel ih =>
    intro i h1 h2
    by_cases hik : i = k
    · subst hik
      simp only [pollLoop]
      simp [hks, hkp]
    · have hilt : i < k := lt_of_le_of_ne h1 hik
      have hp := hpend i hilt
      simp only [pollLoop]
      simp [hp]
      exact ih (i + 1) hilt (by omega)

/-- A `failure` exit of the loop never carries `SUCCESS` or `PENDING`: those
two statuses take the `break` and the sleep-and-continue branches. -/
theorem pollLoop_failure_status (responses : Nat → TaskStatus) :
    ∀ fuel i n st rid,
      pollLoop responses i fuel = some (LoopExit.failure n st rid) →
      st ≠ Status.SUCCESS ∧ st ≠ Status.PENDING := by
  intro fuel
  induction fuel with
  | zero => intro i n st rid h; simp [pollLoop] at h
  | succ fuel ih =>
    intro i n st rid h
    simp only [pollLoop] at h
    by_cases h1 : (responses i).status = Status.SUCCESS
    · simp [h1] at h
    · by_cases h2 : (responses i).status = Status.PENDING
      · simp [h1, h2] at h
        exact ih (i + 1) n st rid h
      · simp [h1, h2] at h
        obtain ⟨-, hst, -⟩ := h
        constructor
        · intro hc; exact h1 (hst ▸ hc)
        · intro hc; exact h2 (hst ▸ hc)

-- ---------- Claims about the polling loop ---------- --

/-- C1: for every orchestration run, once the polling loop has ended with an
observed `SUCCESS` (first `SUCCESS` at response index `k`, everything before
pending), the run raises the protocol-violation `APIError` (`Run ID is None`,
modelled by `Outcome.protocolViolation`, whose raised message is
`runIdNoneMessage`) when the run id of the status observed after the loop is
null, and otherwise returns the result fetched for exactly that run id. -/
theorem claim_C1_success_requires_run_id {α : Type} (responses : Nat → TaskStatus)
    (fetch : Int → α) (fuel k : Nat)
    (hpend : ∀ j, j < k → (responses j).status = Status.PENDING)
    (hk : (responses k).status = Status.SUCCESS)
    (hfuel : k < fuel) :
    ((responses (k + 1)).run_id = none →
      orchestrate responses fetch fuel
        = some { outcome := Outcome.protocolViolation, statusRequests := k + 2
                 sleeps := k, fetchCalls := [] } ∧
      raisedMessage TaskKind.dubbing (Outcome.protocolViolation : Outcome α)
        = some runIdNoneMessage) ∧
    (∀ rid, (responses (k + 1)).run_id = some rid →
      orchestrate responses fetch fuel
        = some { outcome := Outcome.result (fetch rid), statusRequests := k + 2
                 sleeps := k, fetchCalls := [rid] }) := by
  have hp := pollLoop_success_of responses k hpend hk fuel 0 (Nat.zero_le k) (by omega)
  constructor
  · intro hnone
    constructor
    · simp [orchestrate, hp, hnone]
    · rfl
  · intro rid hrid
    simp [orchestrate, hp, hrid]

/-- Witness for C1 at a concrete scripted stream: immediate `SUCCESS` with run
id 7; the orchestrator returns the result fetched for run id 7. -/
theorem claim_C1_witness :
    orchestrate (fun _ => { status := Status.SUCCESS, run_id := some 7 })
        (fun r => r) 1
      = some { outcome := Outcome.result 7, statusRequests := 2
               sleeps := 0, fetchCalls := [7] } :=
  (claim_C1_success_requires_run_id (fun _ => { status := Status.SUCCESS, run_id := some 7 })
    (fun r => r) 1 0 (fun j hj => absurd hj (Nat.not_lt_zero j)) rfl
    (Nat.zero_lt_one)).2 7 rfl

/-- C3: on the scripted status sequence `[PENDING, PENDING, ERROR]` (with any
run ids attached), the orchestrator raises the task-failure `APIError` after
exactly two completed poll-wait cycles (`sleeps = 2`; the error is observed on
the third status check, `statusRequests = 3`), and the result fetcher is never
called (`fetchCalls = []`). -/
theorem claim_C3_pending_pending_error {α : Type} (fetch : Int → α)
    (rids : Nat → Option Int) (fuel : Nat) (hfuel : 3 ≤ fuel) :
    orchestrate
        (fun i => if i < 2 then { status := Status.PENDING, run_id := rids i }
                  else { status := Status.ERROR, run_id := rids i })
        fetch fuel
      = some { outcome := Outcome.taskFailure Status.ERROR (rids 2)
               statusRequests := 3, sleeps := 2, fetchCalls := [] } := by
  have hp := pollLoop_failure_of
    (fun i => if i < 2 then { status := Status.PENDING, run_id := rids i }
              else { status := Status.ERROR, run_id := rids i })
    2 (fun j hj => by simp [hj]) (by simp) (by simp) fuel 0 (by omega) (by omega)
  simp only [orchestrate, hp]
  simp

/-- Witness for C3 at concrete run ids and fuel. -/
theorem claim_C3_witness :
    orchestrate
        (fun i => if i < 2 then { status := Status.PENDING, run_id := (none : Option Int) }
                  else { status := Status.ERROR, run_id := none })
        (fun r => r) 3
      = some { outcome := Outcome.taskFailure Status.ERROR none
               statusRequests := 3, sleeps := 2, fetchCalls := [] } :=
  claim_C3_pending_pending_error (fun r => r) (fun _ => none) 3 (Nat.le_refl 3)

/-- C4: whenever the orchestration terminates, its outcome is one of exactly
five: a fetched result (SUCCEEDED), a task failure with status `TIMEOUT`,
`ERROR` or `PAYMENT_REQUIRED` (the three terminal failure states), or the
run-id protocol violation; and on a stream consisting only of `PENDING` the
loop never terminates — for every fuel bound the run is still polling. -/
theorem claim_C4_five_outcomes :
    (∀ (α : Type) (responses : Nat → TaskStatus) (fetch : Int → α)
        (fuel : Nat) (tr : Trace α),
      orchestrate responses fetch fuel = some tr →
      (∃ a, tr.outcome = Outcome.result a) ∨
      tr.outcome = Outcome.protocolViolation ∨
      (∃ rid, tr.outcome = Outcome.taskFailure Status.TIMEOUT rid ∨
              tr.outcome = Outcome.taskFailure Status.ERROR rid ∨
              tr.outcome = Outcome.taskFailure Status.PAYMENT_REQUIRED rid)) ∧
    (∀ (α : Type) (responses : Nat → TaskStatus) (fetch : Int → α) (fuel : Nat),
      (∀ i, (responses i).status = Status.PENDING) →
      orchestrate responses fetch fuel = none) := by
  constructor
  · intro α responses fetch fuel tr h
    cases hp : pollLoop responses 0 fuel with
    | none => simp [orchestrate, hp] at h
    | some ex =>
      cases ex with
      | success n =>
        cases hrid : (responses (n + 1)).run_id with
        | none =>
          simp only [orchestrate, hp, hrid] at h
          injection h with h
          subst h
          right; left; rfl
        | some rid =>
          simp only [orchestrate, hp, hrid] at h
          injection h with h
          subst h
          left; exact ⟨fetch rid, rfl⟩
      | failure n st rid =>
        have hns := pollLoop_failure_status responses fuel 0 n st rid hp
        simp only [orchestrate, hp] at h
        injection h with h
        subst h
        right; right
        refine ⟨rid, ?_⟩
        cases st with
        | SUCCESS => exact absurd rfl hns.1
        | PENDING => exact absurd rfl hns.2
        | TIMEOUT => left; rfl
        | ERROR => right; left; rfl
        | PAYMENT_REQUIRED => right; right; rfl
  · intro α responses fetch fuel h
    unfold orchestrate
    rw [pollLoop_pending_none responses h fuel 0]

/-- Witness for C4: a concrete terminating run falls in the five-outcome
classification, and a concrete all-`PENDING` run is still polling after five
status checks. -/
theorem claim_C4_witness :
    ((∃ a, ({ outcome := Outcome.taskFailure Status.ERROR (none : Option Int)
              statusRequests := 1, sleeps := 0, fetchCalls := [] } : Trace Int).outcome
            = Outcome.result a) ∨
      ({ outcome := Outcome.taskFailure Status.ERROR (none : Option Int)
         statusRequests := 1, sleeps := 0, fetchCalls := [] } : Trace Int).outcome
        = Outcome.protocolViolation ∨
      (∃ rid, ({ outcome := Outcome.taskFailure Status.ERROR (none : Option Int)
                 statusRequests := 1, sleeps := 0, fetchCalls := [] } : Trace Int).outcome
              = Outcome.taskFailure Status.TIMEOUT rid ∨
            ({ outcome := Outcome.taskFailure Status.ERROR (none : Option Int)
               statusRequests := 1, sleeps := 0, fetchCalls := [] } : Trace Int).outcome
              = Outcome.taskFailure Status.ERROR rid ∨
            ({ outcome := Outcome.taskFailure Status.ERROR (none : Option Int)
               statusRequests := 1, sleeps := 0, fetchCalls := [] } : Trace Int).outcome
              = Outcome.taskFailure Status.PAYMENT_REQUIRED rid)) ∧
    orchestrate (fun _ => { status := Status.PENDING, run_id := none })
        (fun r => (r : Int)) 5 = none :=
  ⟨claim_C4_five_outcomes.1 Int (fun _ => { status := Status.ERROR, run_id := none })
      (fun r => r) 1 _ rfl,
    claim_C4_five_outcomes.2 Int (fun _ => { status := Status.PENDING, run_id := none })
      (fun r => r) 5 (fun _ => rfl)⟩

/-- C10: after the loop observes its first `SUCCESS` (at response index `k`,
i.e. on poll number `k + 1`), the orchestrator performs one additional status
fetch before fetching the result, so exactly `k + 2` status requests are
issued (`n + 1` for a first `SUCCESS` on poll `n = k + 1`), and the outcome —
the fetched result or the run-id-null error — is determined by the `run_id` of
response `k + 1`, not of response `k`.  The second conjunct exhibits the
contrast concretely: response 0 is `SUCCESS` with run id 5, yet the run raises
the run-id-null error because the post-loop fetch (response 1) carries none. -/
theorem claim_C10_post_loop_fetch :
    (∀ (α : Type) (responses : Nat → TaskStatus) (fetch : Int → α) (fuel k : Nat),
      (∀ j, j < k → (responses j).status = Status.PENDING) →
      (responses k).status = Status.SUCCESS →
      k < fuel →
      ∃ tr, orchestrate responses fetch fuel = some tr ∧
        tr.statusRequests = k + 2 ∧
        tr.outcome = (match (responses (k + 1)).run_id with
          | none => Outcome.protocolViolation
          | some rid => Outcome.result (fetch rid)) ∧
        tr.fetchCalls = (match (responses (k + 1)).run_id with
          | none => []
          | some rid => [rid])) ∧
    orchestrate
        (fun i => if i = 0 then { status := Status.SUCCESS, run_id := some 5 }
                  else { status := Status.SUCCESS, run_id := none })
        (fun r => (r : Int)) 1
      = some { outcome := Outcome.protocolViolation, statusRequests := 2
               sleeps := 0, fetchCalls := [] } := by
  constructor
  · intro α responses fetch fuel k hpend hk hfuel
    have hp := pollLoop_success_of responses k hpend hk fuel 0 (Nat.zero_le k) (by omega)
    cases hrid : (responses (k + 1)).run_id with
    | none =>
      refine ⟨{ outcome := Outcome.protocolViolation, statusRequests := k + 2
                sleeps := k, fetchCalls := [] }, ?_, rfl, ?_, ?_⟩ <;>
        simp [orchestrate, hp, hrid]
    | some rid =>
      refine ⟨{ outcome := Outcome.result (fetch rid), statusRequests := k + 2
                sleeps := k, fetchCalls := [rid] }, ?_, rfl, ?_, ?_⟩ <;>
        simp [orchestrate, hp, hrid]
  · rfl

/-- Witness for C10 at a concrete stream: first `SUCCESS` at index 0, the
post-loop fetch (response 1) carries run id 9, so two status requests are
issued and the returned result is the one fetched for run id 9. -/
theorem claim_C10_witness :
    ∃ tr, orchestrate
        (fun i => if i = 0 then { status := Status.SUCCESS, run_id := some 5 }
                  else { status := Status.SUCCESS, run_id := some 9 })
        (fun r => (r : Int)) 1 = some tr ∧
      tr.statusRequests = 0 + 2 ∧
      tr.outcome = (match ((fun i => if i = 0
              then { status := Status.SUCCESS, run_id := some 5 }
              else { status := Status.SUCCESS, run_id := some 9 }) (0 + 1) :
            TaskStatus).run_id with
        | none => Outcome.protocolViolation
        | some rid => Outcome.result ((fun r => (r : Int)) rid)) ∧
      tr.fetchCalls = (match ((fun i => if i = 0
              then { status := Status.SUCCESS, run_id := some 5 }
              else { status := Status.SUCCESS, run_id := some 9 }) (0 + 1) :
            TaskStatus).run_id with
        | none => []
        | some rid => [rid]) :=
  claim_C10_post_loop_fetch.1 Int
    (fun i => if i = 0 then { status := Status.SUCCESS, run_id := some 5 }
              else { status := Status.SUCCESS, run_id := some 9 })
    (fun r => r) 1 0 (fun j hj => absurd hj (Nat.not_lt_zero j)) rfl Nat.zero_lt_one

-- ---------- Claims about the submitters ---------- --

/-- C2 (amended): each of the four task-creation submitters (`create_tts`,
`create_transcription`, `create_translation`, `create_translated_tts`)
rejects any language id outside the closed range `[1, 148]` locally, raising a
`ValueError`/`TypeError` validation error before issuing any network request
(`networkRequests = 0`); the dubbing submitter `start_dubbing` performs no
language-id validation (see `claim_C2_counterexample`). -/
theorem claim_C2_language_range_validation :
    (∀ s text voice_id language gender age response,
      ¬ (1 ≤ language ∧ language ≤ 148) →
      (create_tts s text voice_id language gender age response).networkRequests = 0 ∧
      ∃ e, (create_tts s text voice_id language gender age response).outcome
            = SubmitOutcome.localError e) ∧
    (∀ s audio_file fileExists language response,
      ¬ (1 ≤ language ∧ language ≤ 148) →
      (create_transcription s audio_file fileExists language response).networkRequests = 0 ∧
      (create_transcription s audio_file fileExists language response).outcome
        = SubmitOutcome.localError
            (PyError.valueError "Language ID must be between 1 and 148")) ∧
    (∀ s text source_language target_language age formality gender response,
      ¬ (1 ≤ source_language ∧ source_language ≤ 148) ∨
      ¬ (1 ≤ target_language ∧ target_language ≤ 148) →
      (create_translation s text source_language target_language age formality
          gender response).networkRequests = 0 ∧
      ∃ msg, (create_translation s text source_language target_language age formality
          gender response).outcome
            = SubmitOutcome.localError (PyError.valueError msg)) ∧
    (∀ s text voice_id source_language target_language age formality gender response,
      ¬ (1 ≤ source_language ∧ source_language ≤ 148) ∨
      ¬ (1 ≤ target_language ∧ target_language ≤ 148) →
      (create_translated_tts s text voice_id source_language target_language age
          formality gender response).networkRequests = 0 ∧
      ∃ msg, (create_translated_tts s text voice_id source_language target_language age
          formality gender response).outcome
            = SubmitOutcome.localError (PyError.valueError msg)) := by
  refine ⟨?_, ?_, ?_, ?_⟩
  · intro s text voice_id language gender age response h
    by_cases hg : genderArgRejected gender
    · simp [create_tts, hg, h]
    · simp [create_tts, hg, h]
  · intro s audio_file fileExists language response h
    simp [create_transcription, h]
  · intro s text sl tl age formality gender response h
    by_cases hs : 1 ≤ sl ∧ sl ≤ 148
    · have ht : ¬ (1 ≤ tl ∧ tl ≤ 148) := by tauto
      simp [create_translation, hs, ht]
    · simp [create_translation, hs]
  · intro s text voice_id sl tl age formality gender response h
    by_cases hs : 1 ≤ sl ∧ sl ≤ 148
    · have ht : ¬ (1 ≤ tl ∧ tl ≤ 148) := by tauto
      simp [create_translated_tts, hs, ht]
    · simp [create_translated_tts, hs]

/-- Counterexample to C2 as stated: `start_dubbing` — the submitter for the
fifth task kind, dubbing — does no local language-id validation at all.
Called with source and target language ids 999 (far outside `[1, 148]`), it
still issues its network request and returns the task info instead of
rejecting locally. -/
theorem claim_C2_counterexample :
    (start_dubbing { headers := [("x-api-key", "key")] } "http://example.com/v.mp4"
        999 999
        { status_code := 200, body := "", taskInfo := { task_id := "t1" } }).networkRequests
      = 1 ∧
    (start_dubbing { headers := [("x-api-key", "key")] } "http://example.com/v.mp4"
        999 999
        { status_code := 200, body := "", taskInfo := { task_id := "t1" } }).outcome
      = SubmitOutcome.taskInfo { task_id := "t1" } :=
  ⟨rfl, rfl⟩

/-- Witness for C2 (amended) at a concrete out-of-range language id 0. -/
theorem claim_C2_witness :
    (create_tts { headers := [] } "hello" 1 0 none none
        { status_code := 200, body := "", taskInfo := { task_id := "t1" } }).networkRequests
      = 0 ∧
    ∃ e, (create_tts { headers := [] } "hello" 1 0 none none
        { status_code := 200, body := "", taskInfo := { task_id := "t1" } }).outcome
          = SubmitOutcome.localError e :=
  claim_C2_language_range_validation.1 { headers := [] } "hello" 1 0 none none
    { status_code := 200, body := "", taskInfo := { task_id := "t1" } } (by decide)

/-- C5: when the submission endpoint answers with a non-200 status, every
submitter that reached the network surfaces the failure as the
`httpFailure` outcome carrying exactly the response status code and body (the
diagnostic printed before `sys.exit(1)`); no `TaskInfo` (hence no `task_id`)
is produced, the polling loop is never entered, and no retry happens — every
submitter issues at most one network request on every input. -/
theorem claim_C5_non_200_rejection :
    (∀ s video_url sl tl response, response.status_code ≠ 200 →
      (start_dubbing s video_url sl tl response).outcome
        = SubmitOutcome.httpFailure response.status_code response.body) ∧
    (∀ s text voice_id language gender age response, response.status_code ≠ 200 →
      ¬ genderArgRejected gender → (1 ≤ language ∧ language ≤ 148) →
      (create_tts s text voice_id language gender age response).outcome
        = SubmitOutcome.httpFailure response.status_code response.body) ∧
    (∀ s audio_file language response, response.status_code ≠ 200 →
      (1 ≤ language ∧ language ≤ 148) →
      (create_transcription s audio_file true language response).outcome
        = SubmitOutcome.httpFailure response.status_code response.body) ∧
    (∀ s text sl tl age formality gender response, response.status_code ≠ 200 →
      (1 ≤ sl ∧ sl ≤ 148) → (1 ≤ tl ∧ tl ≤ 148) →
      ¬ formalityRejected formality → ¬ genderArgRejected gender →
      (create_translation s text sl tl age formality gender response).outcome
        = SubmitOutcome.httpFailure response.status_code response.body) ∧
    (∀ s text voice_id sl tl age formality gender response, response.status_code ≠ 200 →
      (1 ≤ sl ∧ sl ≤ 148) → (1 ≤ tl ∧ tl ≤ 148) →
      ¬ formalityRejected formality → ¬ genderArgRejected gender →
      (create_translated_tts s text voice_id sl tl age formality gender response).outcome
        = SubmitOutcome.httpFailure response.status_code response.body) ∧
    (∀ (α : Type) (sub : SubmitResult) (responses : Nat → TaskStatus)
        (fetch : Int → α) (fuel : Nat) (code : Nat) (body : String),
      sub.outcome = SubmitOutcome.httpFailure code body →
      sub.outcome.producedTaskId = false ∧
      (runAfterSubmit sub responses fetch fuel).pollingStarted = false ∧
      (runAfterSubmit sub responses fetch fuel).trace = none) ∧
    (∀ s video_url sl tl response,
      (start_dubbing s video_url sl tl response).networkRequests ≤ 1) ∧
    (∀ s text voice_id language gender age response,
      (create_tts s text voice_id language gender age response).networkRequests ≤ 1) ∧
    (∀ s audio_file fileExists language response,
      (create_transcription s audio_file fileExists language response).networkRequests ≤ 1) ∧
    (∀ s text sl tl age formality gender response,
      (create_translation s text sl tl age formality gender response).networkRequests ≤ 1) ∧
    (∀ s text voice_id sl tl age formality gender response,
      (create_translated_tts s text voice_id sl tl age formality gender
          response).networkRequests ≤ 1) := by
  refine ⟨?_, ?_, ?_, ?_, ?_, ?_, ?_, ?_, ?_, ?_, ?_⟩
  · intro s video_url sl tl response h
    simp [start_dubbing, h]
  · intro s text voice_id language gender age response h hg hl
    simp [create_tts, h, hg, hl]
  · intro s audio_file language response h hl
    simp [create_transcription, h, hl]
  · intro s text sl tl age formality gender response h hs ht hf hg
    simp [create_translation, h, hs, ht, hf, hg]
  · intro s text voice_id sl tl age formality gender response h hs ht hf hg
    simp [create_translated_tts, h, hs, ht, hf, hg]
  · intro α sub responses fetch fuel code body h
    refine ⟨?_, ?_, ?_⟩ <;> simp [SubmitOutcome.producedTaskId, runAfterSubmit, h]
  · intro s video_url sl tl response
    simp only [start_dubbing]
    split <;> simp
  · intro s text voice_id language gender age response
    simp only [create_tts]
    split
    · simp
    · split
      · simp
      · split <;> simp
  · intro s audio_file fileExists language response
    simp only [create_transcription]
    split
    · simp
    · split
      · simp
      · split <;> simp
  · intro s text sl tl age formality gender response
    simp only [create_translation]
    split
    · simp
    · split
      · simp
      · split
        · simp
        · split
          · simp
          · split <;> simp
  · intro s text voice_id sl tl age formality gender response
    simp only [create_translated_tts]
    split
    · simp
    · split
      · simp
      · split
        · simp
        · split
          · simp
          · split <;> simp

/-- Witness for C5 at a concrete 404 submission response. -/
theorem claim_C5_witness :
    (start_dubbing { headers := [] } "http://example.com/v.mp4" 1 2
        { status_code := 404, body := "not found", taskInfo := { task_id := "" } }).outcome
      = SubmitOutcome.httpFailure 404 "not found" :=
  claim_C5_non_200_rejection.1 { headers := [] } "http://example.com/v.mp4" 1 2
    { status_code := 404, body := "not found", taskInfo := { task_id := "" } }
    (by decide)

/-- Assigning a header makes it the value every later lookup sees. -/
theorem Session.getHeader_setHeader (s : Session) (k v : String) :
    (s.setHeader k v).getHeader k = some v := by
  unfold Session.setHeader Session.getHeader
  rw [List.find?_cons_of_pos]
  · rfl
  · simp

/-- The assigned header is among the headers attached to later requests. -/
theorem Session.setHeader_mem_requestHeaders (s : Session) (k v : String) :
    (k, v) ∈ (s.setHeader k v).requestHeaders := by
  unfold Session.setHeader Session.requestHeaders
  exact List.mem_cons_self _ _

/-- C7: for the submitters taking these optional parameters — `formality` on
`create_translation` and `create_translated_tts`, `gender` on `create_tts`,
`create_translation` and `create_translated_tts` — a supplied `formality`
outside `{1, 2}` is rejected locally with a `ValueError` before any network
request, and a supplied `gender` that is not one of the four recognized
`Gender` members is rejected locally before any network request; the
rejection is the gender `TypeError` whenever the checks preceding it pass
(in `create_tts` the gender check comes first, so it is always the
`TypeError` there). -/
theorem claim_C7_formality_gender_validation :
    (∀ s text sl tl age f gender response, formalityRejected (some f) →
      (create_translation s text sl tl age (some f) gender response).networkRequests = 0 ∧
      ∃ msg, (create_translation s text sl tl age (some f) gender response).outcome
          = SubmitOutcome.localError (PyError.valueError msg)) ∧
    (∀ s text voice_id sl tl age f gender response, formalityRejected (some f) →
      (create_translated_tts s text voice_id sl tl age (some f) gender
          response).networkRequests = 0 ∧
      ∃ msg, (create_translated_tts s text voice_id sl tl age (some f) gender
          response).outcome
          = SubmitOutcome.localError (PyError.valueError msg)) ∧
    (∀ s text voice_id language g age response, genderArgRejected (some g) →
      (create_tts s text voice_id language (some g) age response).networkRequests = 0 ∧
      ∃ msg, (create_tts s text voice_id language (some g) age response).outcome
          = SubmitOutcome.localError (PyError.typeError msg)) ∧
    (∀ s text sl tl age formality g response, genderArgRejected (some g) →
      (create_translation s text sl tl age formality (some g) response).networkRequests = 0 ∧
      (∃ e, (create_translation s text sl tl age formality (some g) response).outcome
          = SubmitOutcome.localError e) ∧
      ((1 ≤ sl ∧ sl ≤ 148) → (1 ≤ tl ∧ tl ≤ 148) → ¬ formalityRejected formality →
        ∃ msg, (create_translation s text sl tl age formality (some g) response).outcome
            = SubmitOutcome.localError (PyError.typeError msg))) ∧
    (∀ s text voice_id sl tl age formality g response, genderArgRejected (some g) →
      (create_translated_tts s text voice_id sl tl age formality (some g)
          response).networkRequests = 0 ∧
      (∃ e, (create_translated_tts s text voice_id sl tl age formality (some g)
          response).outcome = SubmitOutcome.localError e) ∧
      ((1 ≤ sl ∧ sl ≤ 148) → (1 ≤ tl ∧ tl ≤ 148) → ¬ formalityRejected formality →
        ∃ msg, (create_translated_tts s text voice_id sl tl age formality (some g)
            response).outcome
            = SubmitOutcome.localError (PyError.typeError msg))) := by
  refine ⟨?_, ?_, ?_, ?_, ?_⟩
  · intro s text sl tl age f gender response hf
    by_cases hs : 1 ≤ sl ∧ sl ≤ 148
    · by_cases ht : 1 ≤ tl ∧ tl ≤ 148
      · simp [create_translation, hs, ht, hf]
      · simp [create_translation, hs, ht]
    · simp [create_translation, hs]
  · intro s text voice_id sl tl age f gender response hf
    by_cases hs : 1 ≤ sl ∧ sl ≤ 148
    · by_cases ht : 1 ≤ tl ∧ tl ≤ 148
      · simp [create_translated_tts, hs, ht, hf]
      · simp [create_translated_tts, hs, ht]
    · simp [create_translated_tts, hs]
  · intro s text voice_id language g age response hg
    simp [create_tts, hg]
  · intro s text sl tl age formality g response hg
    by_cases hs : 1 ≤ sl ∧ sl ≤ 148
    · by_cases ht : 1 ≤ tl ∧ tl ≤ 148
      · by_cases hf : formalityRejected formality
        · simp [create_translation, hs, ht, hf]
        · simp [create_translation, hs, ht, hf, hg]
      · simp [create_translation, hs, ht]
    · simp [create_translation, hs]
  · intro s text voice_id sl tl age formality g response hg
    by_cases hs : 1 ≤ sl ∧ sl ≤ 148
    · by_cases ht : 1 ≤ tl ∧ tl ≤ 148
      · by_cases hf : formalityRejected formality
        · simp [create_translated_tts, hs, ht, hf]
        · simp [create_translated_tts, hs, ht, hf, hg]
      · simp [create_translated_tts, hs, ht]
    · simp [create_translated_tts, hs]

/-- Witness for C7 at concrete invalid inputs: formality 3 on
`create_translation` and a non-`Gender` value 5 as gender on `create_tts`. -/
theorem claim_C7_witness :
    ((create_translation { headers := [] } "hi" 1 2 30 (some 3) none
        { status_code := 200, body := "", taskInfo := { task_id := "t" } }).networkRequests
      = 0 ∧
    ∃ msg, (create_translation { headers := [] } "hi" 1 2 30 (some 3) none
        { status_code := 200, body := "", taskInfo := { task_id := "t" } }).outcome
        = SubmitOutcome.localError (PyError.valueError msg)) ∧
    ((create_tts { headers := [] } "hi" 1 2 (some (GenderArg.nonGender 5)) none
        { status_code := 200, body := "", taskInfo := { task_id := "t" } }).networkRequests
      = 0 ∧
    ∃ msg, (create_tts { headers := [] } "hi" 1 2 (some (GenderArg.nonGender 5)) none
        { status_code := 200, body := "", taskInfo := { task_id := "t" } }).outcome
        = SubmitOutcome.localError (PyError.typeError msg)) :=
  ⟨claim_C7_formality_gender_validation.1 { headers := [] } "hi" 1 2 30 3 none
      { status_code := 200, body := "", taskInfo := { task_id := "t" } } (by decide),
    claim_C7_formality_gender_validation.2.2.1 { headers := [] } "hi" 1 2
      (GenderArg.nonGender 5) none
      { status_code := 200, body := "", taskInfo := { task_id := "t" } } (by decide)⟩

/-- C9: each JSON-body submission call that reaches its network request
(`start_dubbing` unconditionally; `create_tts`, `create_translation`,
`create_translated_tts` once their local validation passes) has set
`Content-Type: application/json` on the shared session header state, and the
header is still present on the session the call hands back, so it rides along
on every subsequent request made through the same client. -/
theorem claim_C9_content_type_mutation :
    (∀ s video_url sl tl response,
      (start_dubbing s video_url sl tl response).session.getHeader "Content-Type"
        = some "application/json" ∧
      ("Content-Type", "application/json")
        ∈ (start_dubbing s video_url sl tl response).session.requestHeaders) ∧
    (∀ s text voice_id language gender age response,
      ¬ genderArgRejected gender → (1 ≤ language ∧ language ≤ 148) →
      (create_tts s text voice_id language gender age response).session.getHeader
        "Content-Type" = some "application/json" ∧
      ("Content-Type", "application/json")
        ∈ (create_tts s text voice_id language gender age
            response).session.requestHeaders) ∧
    (∀ s text sl tl age formality gender response,
      (1 ≤ sl ∧ sl ≤ 148) → (1 ≤ tl ∧ tl ≤ 148) →
      ¬ formalityRejected formality → ¬ genderArgRejected gender →
      (create_translation s text sl tl age formality gender
          response).session.getHeader "Content-Type" = some "application/json" ∧
      ("Content-Type", "application/json")
        ∈ (create_translation s text sl tl age formality gender
            response).session.requestHeaders) ∧
    (∀ s text voice_id sl tl age formality gender response,
      (1 ≤ sl ∧ sl ≤ 148) → (1 ≤ tl ∧ tl ≤ 148) →
      ¬ formalityRejected formality → ¬ genderArgRejected gender →
      (create_translated_tts s text voice_id sl tl age formality gender
          response).session.getHeader "Content-Type" = some "application/json" ∧
      ("Content-Type", "application/json")
        ∈ (create_translated_tts s text voice_id sl tl age formality gender
            response).session.requestHeaders) := by
  refine ⟨?_, ?_, ?_, ?_⟩
  · intro s video_url sl tl response
    unfold start_dubbing
    constructor <;> split <;>
      first
        | exact Session.getHeader_setHeader s "Content-Type" "application/json"
        | exact Session.setHeader_mem_requestHeaders s "Content-Type" "application/json"
  · intro s text voice_id language gender age response hg hl
    simp only [create_tts, hg, hl.1, hl.2, if_false, Bool.false_eq_true,
      not_true_eq_false, and_self, not_false_eq_true, if_true, ite_not]
    constructor <;> split <;>
      first
        | exact Session.getHeader_setHeader s "Content-Type" "application/json"
        | exact Session.setHeader_mem_requestHeaders s "Content-Type" "application/json"
  · intro s text sl tl age formality gender response hs ht hf hg
    simp only [create_translation, hs.1, hs.2, ht.1, ht.2, hf, hg, if_false,
      Bool.false_eq_true, not_true_eq_false, and_self, not_false_eq_true, if_true,
      ite_not, eq_self_iff_true]
    constructor <;> split <;>
      first
        | exact Session.getHeader_setHeader s "Content-Type" "application/json"
        | exact Session.setHeader_mem_requestHeaders s "Content-Type" "application/json"
  · intro s text voice_id sl tl age formality gender response hs ht hf hg
    simp only [create_translated_tts, hs.1, hs.2, ht.1, ht.2, hf, hg, if_false,
      Bool.false_eq_true, not_true_eq_false, and_self, not_false_eq_true, if_true,
      ite_not, eq_self_iff_true]
    constructor <;> split <;>
      first
        | exact Session.getHeader_setHeader s "Content-Type" "application/json"
        | exact Session.setHeader_mem_requestHeaders s "Content-Type" "application/json"

/-- Witness for C9 at a concrete passing `create_tts` call. -/
theorem claim_C9_witness :
    (create_tts { headers := [("x-api-key", "key")] } "hi" 1 2 none none
        { status_code := 200, body := "", taskInfo := { task_id := "t" } }).session.getHeader
      "Content-Type" = some "application/json" ∧
    ("Content-Type", "application/json")
      ∈ (create_tts { headers := [("x-api-key", "key")] } "hi" 1 2 none none
          { status_code := 200, body := "", taskInfo := { task_id := "t" } }).session.requestHeaders :=
  claim_C9_content_type_mutation.2.1 { headers := [("x-api-key", "key")] } "hi" 1 2
    none none { status_code := 200, body := "", taskInfo := { task_id := "t" } }
    (by decide) (by decide)

-- ---------- Claims about failure messages and waiting ---------- --

/-- Counterexample to C6 as stated: the task identifier does not appear in the
propagated error.  In a dubbing run for task id `task-7` whose poll observes
status `ERROR` with run id `None`, the raised `APIError` message is exactly
`Dubbing Issue: ERROR for Run ID: None` — it names the status literal and the
run identifier, but the task identifier `task-7` occurs nowhere in it (the
f-strings at lines 746, 1004, 1217, 1475 and 1734 never interpolate
`task_id`). -/
theorem claim_C6_counterexample :
    issueMessage TaskKind.dubbing Status.ERROR none
      = "Dubbing Issue: ERROR for Run ID: None" ∧
    ¬ ("task-7".data <:+: (issueMessage TaskKind.dubbing Status.ERROR none).data) := by
  constructor
  · rfl
  · decide

/-- C6 (amended): whenever a poll observes a terminal non-success status
(`TIMEOUT`, `ERROR` or `PAYMENT_REQUIRED`), every orchestrator raises an
`APIError` whose message names the reported status literal and the run
identifier observed (the task identifier is not part of the message — see the
counterexample). -/
theorem claim_C6_failure_message (kind : TaskKind) (st : Status) (rid : Option Int)
    (_hs : st ≠ Status.SUCCESS) (_hp : st ≠ Status.PENDING) :
    ((Status.literal st).data <:+: (issueMessage kind st rid).data) ∧
    ((ridStr rid).data <:+ (issueMessage kind st rid).data) ∧
    raisedMessage kind (Outcome.taskFailure st rid : Outcome Unit)
      = some (issueMessage kind st rid) := by
  refine ⟨?_, ?_, rfl⟩
  · exact ⟨(issueLabel kind).data, (" for Run ID: " ++ ridStr rid).data, by
      simp [issueMessage, String.data_append, List.append_assoc]⟩
  · exact ⟨(issueLabel kind ++ Status.literal st ++ " for Run ID: ").data, by
      simp [issueMessage, String.data_append, List.append_assoc]⟩

/-- Witness for C6 (amended) at kind dubbing, status `ERROR`, run id 3. -/
theorem claim_C6_witness :
    ((Status.literal Status.ERROR).data
        <:+: (issueMessage TaskKind.dubbing Status.ERROR (some 3)).data) ∧
    ((ridStr (some 3)).data
        <:+ (issueMessage TaskKind.dubbing Status.ERROR (some 3)).data) ∧
    raisedMessage TaskKind.dubbing
        (Outcome.taskFailure Status.ERROR (some 3) : Outcome Unit)
      = some (issueMessage TaskKind.dubbing Status.ERROR (some 3)) :=
  claim_C6_failure_message TaskKind.dubbing Status.ERROR (some 3)
    (by decide) (by decide)

/-- Counterexample to C8 as stated: with a caller-supplied polling interval of
2.5 seconds, the `cambai` orchestrators wait `⌈2.5⌉ = 3` seconds between
status checks (`for _ in tqdm(range(math.ceil(polling_interval))): sleep(1)`),
not the configured 2.5 seconds. -/
theorem claim_C8_counterexample :
    cambaiWaitSeconds (5 / 2) = 3 ∧ ((cambaiWaitSeconds (5 / 2) : ℚ) ≠ 5 / 2) := by
  have h : cambaiWaitSeconds (5 / 2) = 3 := by
    rw [cambaiWaitSeconds, Int.ceil_eq_iff]
    norm_num
  refine ⟨h, ?_⟩
  rw [h]
  norm_num

/-- C8 (amended): `camb_ai_pip.dub` waits exactly the caller-supplied
polling interval before the next status check (`sleep(polling_interval)`);
the `cambai` orchestrators instead wait `⌈polling_interval⌉` seconds — one
1-second sleep per element of `range(math.ceil(polling_interval))` — which
equals the configured interval precisely when the interval is a whole number
of seconds. -/
theorem claim_C8_wait_duration :
    (∀ q : ℚ, pipWaitSeconds q = q) ∧
    (∀ q : ℚ, ((cambaiWaitSeconds q : ℚ) = q ↔ ∃ z : ℤ, q = (z : ℚ))) := by
  constructor
  · intro q
    rfl
  · intro q
    constructor
    · intro h
      exact ⟨⌈q⌉, h.symm⟩
    · rintro ⟨z, rfl⟩
      simp [cambaiWaitSeconds, Int.ceil_intCast]

/-- Witness for C8 (amended) at intervals 5/2 and 4. -/
theorem claim_C8_witness :
    pipWaitSeconds (5 / 2) = 5 / 2 ∧ ((cambaiWaitSeconds (4 : ℚ) : ℚ) = 4) :=
  ⟨claim_C8_wait_duration.1 (5 / 2),
    (claim_C8_wait_duration.2 4).2 ⟨4, by norm_num⟩⟩

end CambAI
